import Mathlib

/-!
Verification of the eastmoney_scraper pipeline (paginated fetch, field-mapped
parse, left-merge, persist) against its natural-language specification.

The Python source is shallowly embedded:
* JSON values are `JVal` (null, exact rational number, string).  The API
  delivers numbers or the `"-"` placeholder; numeric strings (which Python's
  `float()`/`int()` would parse) are outside the modelled value domain, so
  `float()` applied to a string is modelled as a conversion failure.
* Python `round(x, 2)` (round half to even) is modelled exactly on ℚ;
  the binary-float representation error of CPython floats is not modelled
  (all concrete values used below are exactly representable).
* A `dict` is an association list with unique keys; `raw_item.get(k)`
  reads the first binding and yields null when the key is absent.
* Wall-clock reads (`datetime.now().strftime(...)`) become an explicit
  `now : String` argument; `datetime.fromtimestamp(..).strftime(..)` (a pure
  function of the timestamp once the timezone is fixed) becomes an explicit
  `fmtTs : ℤ → String` argument.
* Threads: page fetches are parallel; what varies between executions is the
  `as_completed` arrival order, passed explicitly as a list of page numbers
  (a permutation of the submitted pages).
-/

/-- A JSON scalar as delivered by the quote API: null / number / string. -/
inductive JVal where
  | null : JVal
  | num (q : ℚ) : JVal
  | str (s : String) : JVal
deriving DecidableEq, Repr

/-- One raw API record (`raw_item`): field code ↦ value. -/
abbrev RawRecord := List (String × JVal)

/-- One parsed row (`parsed_item`): column name ↦ value, in insertion order. -/
abbrev Row := List (String × JVal)

/-- A parsed table (`pd.DataFrame` built from a list of dicts): ordered rows. -/
abbrev Table := List Row

/-- `raw_item.get(field_key)`: first binding of the key, null when absent
(Python's `dict.get` default `None`). -/
def rawGet (r : RawRecord) (k : String) : JVal :=
  match r.find? (fun p => p.1 == k) with
  | some p => p.2
  | none => JVal.null

/-- Value of a column in a parsed row (null when the column is absent). -/
def rowGetJ (r : Row) (c : String) : JVal :=
  match r.find? (fun p => p.1 == c) with
  | some p => p.2
  | none => JVal.null

/-- Is `p` a prefix of `l` (character lists)? -/
def isPrefixL : List Char → List Char → Bool
  | [], _ => true
  | _ :: _, [] => false
  | p :: ps, c :: cs => p == c && isPrefixL ps cs

/-- Does `pat` occur inside `l` (character lists)? -/
def containsL : List Char → List Char → Bool
  | [], pat => pat.isEmpty
  | c :: cs, pat => isPrefixL pat (c :: cs) || containsL cs pat

/-- Python's substring test `pat in s` on strings. -/
def strContains (s pat : String) : Bool := containsL s.data pat.data

/-- Round `n / d` (with `d > 0`) to the nearest integer, half to even —
the rounding mode of Python's builtin `round`. -/
def roundHalfEven (n d : ℤ) : ℤ :=
  let f := Int.fdiv n d
  let r := n - f * d
  if 2 * r < d then f
  else if d < 2 * r then f + 1
  else if f % 2 = 0 then f else f + 1

/-- Python `round(q, 2)` on an exact rational. -/
def pyRound2 (q : ℚ) : ℚ := Rat.divInt (roundHalfEven (100 * q.num) (q.den : ℤ)) 100

/-- Exact `q / 10000` (yuan → 10k-yuan scaling). -/
def div10000 (q : ℚ) : ℚ := Rat.divInt q.num (10000 * (q.den : ℤ))

/-- Python `int(q)`: truncation toward zero. -/
def pyInt (q : ℚ) : ℤ := Int.tdiv q.num (q.den : ℤ)

/-- Python `float(v)` on a JSON value: numbers convert, anything else raises
(`ValueError`/`TypeError`, caught by the parser and turned into `None`). -/
def pyFloat? : JVal → Option ℚ
  | JVal.num q => some q
  | _ => none

/-- `SectorConfig.QUOTE_FIELD_MAPPING` (sector_scraper.py lines 60-91),
in dict insertion order. -/
def SECTOR_QUOTE_FIELD_MAPPING : List (String × String) :=
  [("f12", "板块代码"), ("f14", "板块名称"), ("f2", "最新价"), ("f3", "涨跌幅"),
   ("f4", "涨跌额"), ("f5", "成交量"), ("f6", "成交额"), ("f22", "涨速"),
   ("f11", "5分钟涨跌"), ("f104", "上涨家数"), ("f105", "下跌家数"),
   ("f62", "主力净流入"), ("f184", "主力净流入占比"), ("f66", "超大单净流入"),
   ("f69", "超大单净流入占比"), ("f164", "5日主力净流入"), ("f165", "5日主力净流入占比"),
   ("f166", "5日超大单净流入"), ("f167", "5日超大单净流入占比"),
   ("f174", "10日主力净流入"), ("f175", "10日主力净流入占比"),
   ("f176", "10日超大单净流入"), ("f177", "10日超大单净流入占比"),
   ("f128", "领涨股票代码"), ("f140", "领涨股票名称"), ("f136", "领涨股票涨跌幅")]

/-- `ConceptSectorConfig.QUOTE_FIELD_MAPPING` (concept_sector_scraper.py
lines 53-82), in dict insertion order. -/
def CONCEPT_QUOTE_FIELD_MAPPING : List (String × String) :=
  [("f12", "板块代码"), ("f14", "板块名称"), ("f2", "最新价"), ("f3", "涨跌幅"),
   ("f4", "涨跌额"), ("f5", "成交量"), ("f6", "成交额"), ("f7", "振幅"),
   ("f15", "最高价"), ("f16", "最低价"), ("f17", "开盘价"), ("f18", "昨收"),
   ("f8", "换手率"), ("f10", "量比"), ("f22", "涨速"), ("f11", "5分钟涨跌"),
   ("f62", "主力净流入"), ("f184", "主力净流入占比"), ("f66", "超大单净流入"),
   ("f69", "大单净流入"), ("f72", "中单净流入"), ("f75", "小单净流入"),
   ("f164", "超大单净流入占比"), ("f165", "大单净流入占比"),
   ("f166", "中单净流入占比"), ("f167", "小单净流入占比")]

/-- `StockCapitalFlowConfig.FIELD_MAPPING` (stock_capital_flow_scraper.py
lines 63-81), in dict insertion order. -/
def STOCK_FLOW_FIELD_MAPPING : List (String × String) :=
  [("f12", "股票代码"), ("f14", "股票名称"), ("f2", "最新价"), ("f3", "涨跌幅"),
   ("f5", "成交量"), ("f6", "成交额"), ("f62", "主力净流入"), ("f184", "主力净流入占比"),
   ("f66", "超大单净流入"), ("f69", "超大单净流入占比"), ("f72", "大单净流入"),
   ("f75", "大单净流入占比"), ("f78", "中单净流入"), ("f81", "中单净流入占比"),
   ("f84", "小单净流入"), ("f87", "小单净流入占比"), ("f124", "更新时间戳")]

/-- The per-field transform of `SectorDataParser.parse_quotes_data`
(sector_scraper.py lines 410-432) and, with identical branch structure, of
`ConceptSectorParser.parse_concept_quotes` (concept_sector_scraper.py
lines 611-637): null / `"-"` ↦ null; percentage-like names ↦ `round(float, 2)`;
net-inflow amounts and 成交额 ↦ `round(float / 10000, 2)`; 成交量 ↦ `int`;
otherwise pass through. -/
def parseQuoteValue (name : String) (v : JVal) : JVal :=
  if v == JVal.null || v == JVal.str "-" then JVal.null
  else if strContains name "占比" || strContains name "换手率" ||
          strContains name "涨跌幅" || strContains name "振幅" then
    match pyFloat? v with
    | some q => JVal.num (pyRound2 q)
    | none => JVal.null
  else if (strContains name "流入" && !strContains name "占比") || name == "成交额" then
    match pyFloat? v with
    | some q => JVal.num (pyRound2 (div10000 q))
    | none => JVal.null
  else if name == "成交量" then
    match pyFloat? v with
    | some q => JVal.num ((pyInt q : ℤ) : ℚ)
    | none => JVal.null
  else v

/-- One row of `SectorDataParser.parse_quotes_data`: every mapped column,
in field-map order. -/
def parseQuoteRow (r : RawRecord) : Row :=
  SECTOR_QUOTE_FIELD_MAPPING.map (fun p => (p.2, parseQuoteValue p.2 (rawGet r p.1)))

/-- `SectorDataParser.parse_quotes_data` (sector_scraper.py lines 390-440):
empty input gives an empty frame, otherwise one row per record in input
order, no sort. -/
def parse_quotes_data (l : List RawRecord) : Table :=
  if l.isEmpty then [] else l.map parseQuoteRow

/-- One row of `ConceptSectorParser.parse_concept_quotes`. -/
def parseConceptQuoteRow (r : RawRecord) : Row :=
  CONCEPT_QUOTE_FIELD_MAPPING.map (fun p => (p.2, parseQuoteValue p.2 (rawGet r p.1)))

/-- `ConceptSectorParser.parse_concept_quotes` (concept_sector_scraper.py
lines 587-646): same structure as `parse_quotes_data`. -/
def parse_concept_quotes (l : List RawRecord) : Table :=
  if l.isEmpty then [] else l.map parseConceptQuoteRow

/-- The per-field transform of `StockCapitalFlowParser.parse_capital_flow_data`
(stock_capital_flow_scraper.py lines 267-310).  `fmtTs` renders an epoch
timestamp (`datetime.fromtimestamp(..).strftime(..)`), `now` is the current
wall-clock string used when the raw timestamp is absent or falsy. -/
def parseFlowValue (fmtTs : ℤ → String) (now : String) (name : String) (v : JVal) : JVal :=
  if v == JVal.null || v == JVal.str "-" then JVal.null
  else if strContains name "占比" || strContains name "涨跌幅" then
    match pyFloat? v with
    | some q => JVal.num (pyRound2 q)
    | none => JVal.null
  else if (strContains name "流入" && !strContains name "占比") || name == "成交额" ||
          name == "涨跌额" then
    match pyFloat? v with
    | some q => JVal.num (pyRound2 (div10000 q))
    | none => JVal.null
  else if name == "成交量" then
    match pyFloat? v with
    | some q => JVal.num ((pyInt q : ℤ) : ℚ)
    | none => JVal.null
  else if name == "最新价" then
    match pyFloat? v with
    | some q => JVal.num (pyRound2 q)
    | none => JVal.null
  else if name == "更新时间戳" then
    -- `int(raw_value)` then `fromtimestamp`; a falsy raw value (0) or a
    -- conversion failure falls back to `datetime.now()`.
    match v with
    | JVal.num q => if q == 0 then JVal.str now else JVal.str (fmtTs (pyInt q))
    | _ => JVal.str now
  else v

/-- One row of `StockCapitalFlowParser.parse_capital_flow_data`: the mapped
columns followed by the appended 数据获取时间 capture-time column (line 313). -/
def parseFlowRow (fmtTs : ℤ → String) (now : String) (r : RawRecord) : Row :=
  STOCK_FLOW_FIELD_MAPPING.map (fun p => (p.2, parseFlowValue fmtTs now p.2 (rawGet r p.1)))
    ++ [("数据获取时间", JVal.str now)]

/-- Comparison used to model `df.sort_values(col, ascending=False)`:
larger numbers first, non-numeric (NaN/null) entries last. -/
def descNullsLastLe (a b : JVal) : Bool :=
  match a, b with
  | JVal.num x, JVal.num y => decide (y ≤ x)
  | JVal.num _, _ => true
  | _, JVal.num _ => false
  | _, _ => true

/-- Insert into a sorted list (model of a comparison sort; pandas'
`sort_values` tie order is implementation-defined, the model is stable). -/
def insertBy {α : Type} (le : α → α → Bool) (x : α) : List α → List α
  | [] => [x]
  | y :: ys => if le x y then x :: y :: ys else y :: insertBy le x ys

/-- Comparison sort used to model `df.sort_values`. -/
def sortBy {α : Type} (le : α → α → Bool) : List α → List α
  | [] => []
  | x :: xs => insertBy le x (sortBy le xs)

/-- Row order of `df.sort_values('主力净流入', ascending=False)`. -/
def flowRowLe (a b : Row) : Bool :=
  descNullsLastLe (rowGetJ a "主力净流入") (rowGetJ b "主力净流入")

/-- `StockCapitalFlowParser.parse_capital_flow_data`
(stock_capital_flow_scraper.py lines 250-323): empty input gives an empty
frame; otherwise one row per record, then the frame is sorted descending by
主力净流入 (the column is always present, every parsed row binds it). -/
def parse_capital_flow_data (fmtTs : ℤ → String) (now : String)
    (l : List RawRecord) : Table :=
  if l.isEmpty then [] else sortBy flowRowLe (l.map (parseFlowRow fmtTs now))

/-! ### Generic facts about the sort model -/

theorem insertBy_perm {α : Type} (le : α → α → Bool) (x : α) (l : List α) :
    (insertBy le x l).Perm (x :: l) := by
  induction l with
  | nil => simp [insertBy]
  | cons y ys ih =>
    simp only [insertBy]
    by_cases h : le x y = true
    · simp [h]
    · simp only [h, Bool.false_eq_true, if_false]
      exact (ih.cons y).trans (List.Perm.swap x y ys)

theorem sortBy_perm {α : Type} (le : α → α → Bool) (l : List α) :
    (sortBy le l).Perm l := by
  induction l with
  | nil => simp [sortBy]
  | cons x xs ih => exact (insertBy_perm le x (sortBy le xs)).trans (ih.cons x)

theorem insertBy_pairwise {α : Type} {le : α → α → Bool}
    (htot : ∀ a b, le a b = true ∨ le b a = true)
    (htr : ∀ a b c, le a b = true → le b c = true → le a c = true)
    (x : α) {l : List α} (hl : l.Pairwise (fun a b => le a b = true)) :
    (insertBy le x l).Pairwise (fun a b => le a b = true) := by
  induction l with
  | nil => simp [insertBy]
  | cons y ys ih =>
    rcases hl with - | ⟨hy, hys⟩
    simp only [insertBy]
    by_cases h : le x y = true
    · simp only [h, if_true]
      refine List.Pairwise.cons ?_ (List.Pairwise.cons hy hys)
      intro b hb
      rcases List.mem_cons.mp hb with rfl | hb3
      · exact h
      · exact htr x y b h (hy b hb3)
    · simp only [h, Bool.false_eq_true, if_false]
      refine List.Pairwise.cons ?_ (ih hys)
      intro b hb
      have hb2 := (insertBy_perm le x ys).mem_iff.mp hb
      rcases List.mem_cons.mp hb2 with hbx | hb3
      · rw [hbx]
        rcases htot x y with hxy | hyx
        · exact absurd hxy h
        · exact hyx
      · exact hy b hb3

theorem sortBy_pairwise {α : Type} {le : α → α → Bool}
    (htot : ∀ a b, le a b = true ∨ le b a = true)
    (htr : ∀ a b c, le a b = true → le b c = true → le a c = true)
    (l : List α) :
    (sortBy le l).Pairwise (fun a b => le a b = true) := by
  induction l with
  | nil => simp [sortBy]
  | cons x xs ih => exact insertBy_pairwise htot htr x ih

theorem descNullsLastLe_total (a b : JVal) :
    descNullsLastLe a b = true ∨ descNullsLastLe b a = true := by
  cases a <;> cases b <;> simp [descNullsLastLe] <;> exact le_total _ _

theorem descNullsLastLe_trans (a b c : JVal)
    (hab : descNullsLastLe a b = true) (hbc : descNullsLastLe b c = true) :
    descNullsLastLe a c = true := by
  cases a <;> cases b <;> cases c <;>
    simp_all [descNullsLastLe] <;> exact le_trans hbc hab

theorem flowRowLe_total (a b : Row) :
    flowRowLe a b = true ∨ flowRowLe b a = true :=
  descNullsLastLe_total _ _

theorem flowRowLe_trans (a b c : Row)
    (hab : flowRowLe a b = true) (hbc : flowRowLe b c = true) :
    flowRowLe a c = true :=
  descNullsLastLe_trans _ _ _ hab hbc

/-! ### Paginated fetch (Fetcher) -/

/-- The `data` envelope of one page response: the reported `total` count and
the `diff` record array.  A failed request, a missing/empty `data` field or a
JSONP/JSON parse failure are all collapsed to `none` (the code treats them
identically: the page contributes nothing); a missing or empty `diff` is the
empty list (`extend`-ing with it is a no-op, same as the skip branch). -/
structure PageData where
  total : ℕ
  diff : List RawRecord
deriving DecidableEq

/-- The records contributed by page `n` of the oracle `pages`
(a failed page contributes nothing). -/
def pageDiff (pages : ℕ → Option PageData) (n : ℕ) : List RawRecord :=
  match pages n with
  | some d => d.diff
  | none => []

/-- `total_pages = (total_records + page_size - 1) // page_size` with the
hard-coded `page_size_for_total_count = 100`. -/
def totalPages100 (total : ℕ) : ℕ := (total + 100 - 1) / 100

/-- The page numbers submitted to the thread pool by
`SectorDataFetcher.fetch_all_quotes` (sector_scraper.py lines 188-244):
pages `2 .. total_pages` when the first page succeeded, `total ≠ 0` and
`total_pages > 1`; nothing otherwise. -/
def sector_requested_pages (pages : ℕ → Option PageData) : List ℕ :=
  match pages 1 with
  | none => []
  | some d =>
    if d.total = 0 then []
    else if 1 < totalPages100 d.total then List.range' 2 (totalPages100 d.total - 1)
    else []

/-- `SectorDataFetcher.fetch_all_quotes`: first page's `diff`, then the
`diff`s of the remaining pages in thread-pool completion order (`arrival`,
a permutation of the submitted page numbers). -/
def fetch_all_quotes (pages : ℕ → Option PageData) (arrival : List ℕ) : List RawRecord :=
  match pages 1 with
  | none => []
  | some d =>
    if d.total = 0 then d.diff
    else if 1 < totalPages100 d.total then
      d.diff ++ (arrival.map (pageDiff pages)).flatten
    else d.diff

/-- The page numbers submitted by `ConceptSectorFetcher.fetch_concept_quotes`
(concept_sector_scraper.py lines 220-287; line-for-line the same algorithm as
`fetch_all_quotes`). -/
def concept_requested_pages (pages : ℕ → Option PageData) : List ℕ :=
  match pages 1 with
  | none => []
  | some d =>
    if d.total = 0 then []
    else if 1 < totalPages100 d.total then List.range' 2 (totalPages100 d.total - 1)
    else []

/-- `ConceptSectorFetcher.fetch_concept_quotes`. -/
def fetch_concept_quotes (pages : ℕ → Option PageData) (arrival : List ℕ) : List RawRecord :=
  match pages 1 with
  | none => []
  | some d =>
    if d.total = 0 then d.diff
    else if 1 < totalPages100 d.total then
      d.diff ++ (arrival.map (pageDiff pages)).flatten
    else d.diff

theorem totalPages100_pos {t : ℕ} (ht : 0 < t) : 1 ≤ totalPages100 t := by
  unfold totalPages100
  rw [Nat.le_div_iff_mul_le (by norm_num : 0 < 100)]
  omega

theorem sector_fetch_pagination (pages : ℕ → Option PageData) (arrival : List ℕ)
    (d : PageData) (h1 : pages 1 = some d) (hT : 0 < d.total)
    (harr : arrival.Perm (sector_requested_pages pages)) :
    (sector_requested_pages pages).length = totalPages100 d.total - 1
    ∧ sector_requested_pages pages = List.range' 2 (totalPages100 d.total - 1)
    ∧ (sector_requested_pages pages).Nodup
    ∧ 1 ∉ sector_requested_pages pages
    ∧ (fetch_all_quotes pages arrival).Perm
        (d.diff ++ ((List.range' 2 (totalPages100 d.total - 1)).map
          (pageDiff pages)).flatten) := by
  have htp := totalPages100_pos hT
  have hreq : sector_requested_pages pages = List.range' 2 (totalPages100 d.total - 1) := by
    unfold sector_requested_pages
    rw [h1]
    simp only [Nat.pos_iff_ne_zero.mp hT, if_false]
    by_cases hgt : 1 < totalPages100 d.total
    · simp [hgt]
    · have : totalPages100 d.total = 1 := by omega
      simp [hgt, this]
  refine ⟨?_, hreq, ?_, ?_, ?_⟩
  · rw [hreq, List.length_range']
  · rw [hreq]; exact List.nodup_range' _ _
  · rw [hreq]
    intro hmem
    have := (List.mem_range'_1.mp hmem).1
    omega
  · unfold fetch_all_quotes
    rw [h1]
    simp only [Nat.pos_iff_ne_zero.mp hT, if_false]
    by_cases hgt : 1 < totalPages100 d.total
    · simp only [hgt, if_true]
      refine List.Perm.append_left d.diff ?_
      refine List.Perm.flatten (List.Perm.map (pageDiff pages) ?_)
      rw [← hreq]
      exact harr
    · have h1tp : totalPages100 d.total = 1 := by omega
      simp only [hgt, if_false, h1tp]
      simp

theorem concept_fetch_pagination (pages : ℕ → Option PageData) (arrival : List ℕ)
    (d : PageData) (h1 : pages 1 = some d) (hT : 0 < d.total)
    (harr : arrival.Perm (concept_requested_pages pages)) :
    (concept_requested_pages pages).length = totalPages100 d.total - 1
    ∧ concept_requested_pages pages = List.range' 2 (totalPages100 d.total - 1)
    ∧ (concept_requested_pages pages).Nodup
    ∧ 1 ∉ concept_requested_pages pages
    ∧ (fetch_concept_quotes pages arrival).Perm
        (d.diff ++ ((List.range' 2 (totalPages100 d.total - 1)).map
          (pageDiff pages)).flatten) := by
  have htp := totalPages100_pos hT
  have hreq : concept_requested_pages pages = List.range' 2 (totalPages100 d.total - 1) := by
    unfold concept_requested_pages
    rw [h1]
    simp only [Nat.pos_iff_ne_zero.mp hT, if_false]
    by_cases hgt : 1 < totalPages100 d.total
    · simp [hgt]
    · have : totalPages100 d.total = 1 := by omega
      simp [hgt, this]
  refine ⟨?_, hreq, ?_, ?_, ?_⟩
  · rw [hreq, List.length_range']
  · rw [hreq]; exact List.nodup_range' _ _
  · rw [hreq]
    intro hmem
    have := (List.mem_range'_1.mp hmem).1
    omega
  · unfold fetch_concept_quotes
    rw [h1]
    simp only [Nat.pos_iff_ne_zero.mp hT, if_false]
    by_cases hgt : 1 < totalPages100 d.total
    · simp only [hgt, if_true]
      refine List.Perm.append_left d.diff ?_
      refine List.Perm.flatten (List.Perm.map (pageDiff pages) ?_)
      rw [← hreq]
      exact harr
    · have h1tp : totalPages100 d.total = 1 := by omega
      simp only [hgt, if_false, h1tp]
      simp

/-- C1: pagination completeness.  When the first page reports `total = T > 0`
(page size 100), both `fetch_all_quotes` and `fetch_concept_quotes` submit
exactly `ceil(T/100) - 1` additional page requests — the pages
`2 .. ceil(T/100)`, each exactly once and never page 1 again — and, however
the thread pool completes them, the returned list is a permutation of: the
first page's `diff` followed by the `diff` arrays of pages `2 .. ceil(T/100)`
(a failed or empty page contributing nothing, without aborting the fetch). -/
theorem pagination_completeness (pages pages2 : ℕ → Option PageData)
    (arrival arrival2 : List ℕ) (d d2 : PageData)
    (h1 : pages 1 = some d) (hT : 0 < d.total)
    (harr : arrival.Perm (sector_requested_pages pages))
    (h1c : pages2 1 = some d2) (hTc : 0 < d2.total)
    (harrc : arrival2.Perm (concept_requested_pages pages2)) :
    ((sector_requested_pages pages).length = totalPages100 d.total - 1
      ∧ sector_requested_pages pages = List.range' 2 (totalPages100 d.total - 1)
      ∧ (sector_requested_pages pages).Nodup
      ∧ 1 ∉ sector_requested_pages pages
      ∧ (fetch_all_quotes pages arrival).Perm
          (d.diff ++ ((List.range' 2 (totalPages100 d.total - 1)).map
            (pageDiff pages)).flatten))
    ∧ ((concept_requested_pages pages2).length = totalPages100 d2.total - 1
      ∧ concept_requested_pages pages2 = List.range' 2 (totalPages100 d2.total - 1)
      ∧ (concept_requested_pages pages2).Nodup
      ∧ 1 ∉ concept_requested_pages pages2
      ∧ (fetch_concept_quotes pages2 arrival2).Perm
          (d2.diff ++ ((List.range' 2 (totalPages100 d2.total - 1)).map
            (pageDiff pages2)).flatten)) :=
  ⟨sector_fetch_pagination pages arrival d h1 hT harr,
   concept_fetch_pagination pages2 arrival2 d2 h1c hTc harrc⟩

/-- A 3-page oracle (total 250, page size 100) for the pagination witness:
pages 1-3 succeed, everything else fails. -/
def pagesW : ℕ → Option PageData := fun n =>
  if n = 1 then some ⟨250, [[("f12", JVal.str "BK1")]]⟩
  else if n = 2 then some ⟨250, [[("f12", JVal.str "BK2")]]⟩
  else if n = 3 then some ⟨250, [[("f12", JVal.str "BK3")]]⟩
  else none

/-- C1 witness: the oracle reporting `total = 250` submits exactly pages
`[2, 3]`, and an out-of-order completion `[3, 2]` still yields all three
pages' records. -/
theorem pagination_completeness_witness :
    pagesW 1 = some ⟨250, [[("f12", JVal.str "BK1")]]⟩
    ∧ (0 : ℕ) < 250
    ∧ [3, 2].Perm (sector_requested_pages pagesW)
    ∧ (((sector_requested_pages pagesW).length = totalPages100 250 - 1
      ∧ sector_requested_pages pagesW = List.range' 2 (totalPages100 250 - 1)
      ∧ (sector_requested_pages pagesW).Nodup
      ∧ 1 ∉ sector_requested_pages pagesW
      ∧ (fetch_all_quotes pagesW [3, 2]).Perm
          (([[("f12", JVal.str "BK1")]] : List RawRecord)
            ++ ((List.range' 2 (totalPages100 250 - 1)).map
              (pageDiff pagesW)).flatten))
    ∧ ((concept_requested_pages pagesW).length = totalPages100 250 - 1
      ∧ concept_requested_pages pagesW = List.range' 2 (totalPages100 250 - 1)
      ∧ (concept_requested_pages pagesW).Nodup
      ∧ 1 ∉ concept_requested_pages pagesW
      ∧ (fetch_concept_quotes pagesW [2, 3]).Perm
          (([[("f12", JVal.str "BK1")]] : List RawRecord)
            ++ ((List.range' 2 (totalPages100 250 - 1)).map
              (pageDiff pagesW)).flatten))) :=
  ⟨by decide, by decide, by decide,
   pagination_completeness pagesW pagesW [3, 2] [2, 3] ⟨250, [[("f12", JVal.str "BK1")]]⟩
     ⟨250, [[("f12", JVal.str "BK1")]]⟩ (by decide) (by decide) (by decide)
     (by decide) (by decide) (by decide)⟩

/-! ### Left merge (pandas `pd.merge(left, right, on=key, how='left')`) -/

/-- Suffix renaming of a left-frame column: a non-key column also present in
the right frame becomes `name_x` (pandas' default suffixes). -/
def renameLeftCol (key : String) (rightCols : List String) (p : String × JVal) : String × JVal :=
  if p.1 ≠ key ∧ p.1 ∈ rightCols then (p.1 ++ "_x", p.2) else p

/-- Suffix renaming of a right-frame column: a non-key column also present in
the left frame becomes `name_y`. -/
def renameRightCol (key : String) (leftCols : List String) (c : String) : String :=
  if c ≠ key ∧ c ∈ leftCols then c ++ "_y" else c

/-- Do the two rows agree on the merge key? -/
def keyMatches (key : String) (L R : Row) : Bool := rowGetJ R key == rowGetJ L key

/-- The result row for a left row `L` matched with right row `R`: the left
columns (suffix-renamed) followed by the right columns minus the key. -/
def mergeRowMatched (key : String) (leftCols rightCols : List String) (L R : Row) : Row :=
  L.map (renameLeftCol key rightCols) ++
    (R.filter (fun p => !(p.1 == key))).map
      (fun p => (renameRightCol key leftCols p.1, p.2))

/-- The result row for a left row `L` with no key match in the right frame:
the right columns (minus the key) are filled with null (pandas NaN). -/
def mergeRowUnmatched (key : String) (leftCols rightCols : List String) (L : Row) : Row :=
  L.map (renameLeftCol key rightCols) ++
    (rightCols.filter (fun c => !(c == key))).map
      (fun c => (renameRightCol key leftCols c, JVal.null))

/-- `pd.merge(left, right, on=key, how='left')` as performed by
`ConceptSectorScraper.scrape_all_data` (concept_sector_scraper.py lines
879-892): each left row in order, paired with every matching right row in
right order, or null-extended when no right row matches. -/
def leftMerge (key : String) (leftCols rightCols : List String)
    (left right : Table) : Table :=
  left.flatMap (fun L =>
    let ms := right.filter (keyMatches key L)
    if ms.isEmpty then [mergeRowUnmatched key leftCols rightCols L]
    else ms.map (mergeRowMatched key leftCols rightCols L))

/-- The single result row a left row produces when the right frame has at
most one row per key. -/
def mergeRowFn (key : String) (leftCols rightCols : List String)
    (right : Table) (L : Row) : Row :=
  match right.find? (keyMatches key L) with
  | some R => mergeRowMatched key leftCols rightCols L R
  | none => mergeRowUnmatched key leftCols rightCols L

/-- The identity-key of a merged/parsed sector row. -/
def keyOf (r : Row) : JVal := rowGetJ r "板块代码"

theorem filter_keyMatches_of_nodup (key : String) (L : Row) (right : Table)
    (h : (right.map (fun R => rowGetJ R key)).Nodup) :
    right.filter (keyMatches key L)
      = match right.find? (keyMatches key L) with
        | some R => [R]
        | none => [] := by
  induction right with
  | nil => simp
  | cons R rest ih =>
    rw [List.map_cons, List.nodup_cons] at h
    rcases h with ⟨hR, hrest⟩
    by_cases hm : keyMatches key L R = true
    · rw [List.filter_cons_of_pos hm, List.find?_cons_of_pos _ hm]
      have hnil : rest.filter (keyMatches key L) = [] := by
        rw [List.filter_eq_nil_iff]
        intro R2 hR2 hmm
        apply hR
        have h1 : rowGetJ R2 key = rowGetJ L key := by
          simpa [keyMatches] using hmm
        have h2 : rowGetJ R key = rowGetJ L key := by
          simpa [keyMatches] using hm
        rw [← h2] at h1
        exact List.mem_map.mpr ⟨R2, hR2, h1⟩
      rw [hnil]
    · rw [List.filter_cons_of_neg (by simpa using hm),
        List.find?_cons_of_neg _ (by simpa using hm)]
      exact ih hrest

theorem leftMerge_row (key : String) (lc rc : List String)
    (right : Table) (L : Row)
    (h : (right.map (fun R => rowGetJ R key)).Nodup) :
    (let ms := right.filter (keyMatches key L)
     if ms.isEmpty then [mergeRowUnmatched key lc rc L]
     else ms.map (mergeRowMatched key lc rc L))
    = [mergeRowFn key lc rc right L] := by
  simp only
  rw [filter_keyMatches_of_nodup key L right h]
  unfold mergeRowFn
  cases hf : right.find? (keyMatches key L) with
  | none => simp
  | some R => simp

theorem leftMerge_eq_map (key : String) (lc rc : List String)
    (left right : Table)
    (h : (right.map (fun R => rowGetJ R key)).Nodup) :
    leftMerge key lc rc left right = left.map (mergeRowFn key lc rc right) := by
  unfold leftMerge
  induction left with
  | nil => simp
  | cons L rest ih =>
    rw [List.flatMap_cons, List.map_cons, ih, leftMerge_row key lc rc right L h]
    simp

theorem append_ne_of_data_not_suffix (s t k : String)
    (h : ¬ (t.data <:+ k.data)) : s ++ t ≠ k := by
  intro he
  exact h ⟨s.data, by rw [← String.data_append, he]⟩

theorem suffix_x_ne_sector_key (s : String) : s ++ "_x" ≠ "板块代码" :=
  append_ne_of_data_not_suffix s "_x" "板块代码" (by decide)

theorem suffix_y_ne_sector_key (s : String) : s ++ "_y" ≠ "板块代码" :=
  append_ne_of_data_not_suffix s "_y" "板块代码" (by decide)

theorem renameLeftCol_fst_beq_key (key : String) (rc : List String)
    (hx : ∀ s : String, s ++ "_x" ≠ key) (p : String × JVal) :
    ((renameLeftCol key rc p).1 == key) = (p.1 == key) := by
  unfold renameLeftCol
  by_cases h : p.1 ≠ key ∧ p.1 ∈ rc
  · rw [if_pos h]
    simp only
    rw [beq_eq_false_iff_ne.mpr (hx p.1), beq_eq_false_iff_ne.mpr h.1]
  · rw [if_neg h]

theorem renameLeftCol_snd (key : String) (rc : List String) (p : String × JVal) :
    (renameLeftCol key rc p).2 = p.2 := by
  unfold renameLeftCol
  by_cases h : p.1 ≠ key ∧ p.1 ∈ rc
  · rw [if_pos h]
  · rw [if_neg h]

theorem renameRightCol_ne_key (key : String) (lc : List String)
    (hy : ∀ s : String, s ++ "_y" ≠ key) (c : String) (hc : c ≠ key) :
    renameRightCol key lc c ≠ key := by
  unfold renameRightCol
  by_cases h : c ≠ key ∧ c ∈ lc
  · rw [if_pos h]; exact hy c
  · rw [if_neg h]; exact hc

theorem rowGetJ_append_left_none (A B : Row) (c : String)
    (hB : ∀ p ∈ B, (p.1 == c) = false) :
    rowGetJ (A ++ B) c = rowGetJ A c := by
  unfold rowGetJ
  rw [List.find?_append]
  have : B.find? (fun p => p.1 == c) = none :=
    List.find?_eq_none.mpr (fun p hp => by simp [hB p hp])
  rw [this]
  cases A.find? (fun p => p.1 == c) <;> rfl

theorem rowGetJ_map_renameLeft (key : String) (rc : List String)
    (hx : ∀ s : String, s ++ "_x" ≠ key) (L : Row) :
    rowGetJ (L.map (renameLeftCol key rc)) key = rowGetJ L key := by
  unfold rowGetJ
  rw [List.find?_map]
  have hpred : ((fun p : String × JVal => p.1 == key) ∘ renameLeftCol key rc)
      = fun p : String × JVal => p.1 == key := by
    funext p
    exact renameLeftCol_fst_beq_key key rc hx p
  rw [hpred]
  cases hf : L.find? (fun p : String × JVal => p.1 == key) with
  | none => rfl
  | some p => simp [renameLeftCol_snd key rc p]

theorem rowGetJ_mergeRowFn_key (key : String) (lc rc : List String)
    (right : Table) (L : Row)
    (hx : ∀ s : String, s ++ "_x" ≠ key)
    (hy : ∀ s : String, s ++ "_y" ≠ key) :
    rowGetJ (mergeRowFn key lc rc right L) key = rowGetJ L key := by
  unfold mergeRowFn
  cases hf : right.find? (keyMatches key L) with
  | some R =>
    unfold mergeRowMatched
    rw [rowGetJ_append_left_none, rowGetJ_map_renameLeft key rc hx L]
    intro p hp
    rcases List.mem_map.mp hp with ⟨q, hq, hpq⟩
    have hq1 : (q.1 == key) = false := by
      have := List.of_mem_filter hq
      simpa using this
    rw [← hpq]
    simp only
    exact beq_eq_false_iff_ne.mpr
      (renameRightCol_ne_key key lc hy q.1 (by simpa using hq1))
  | none =>
    unfold mergeRowUnmatched
    rw [rowGetJ_append_left_none, rowGetJ_map_renameLeft key rc hx L]
    intro p hp
    rcases List.mem_map.mp hp with ⟨c, hc, hpc⟩
    have hc1 : (c == key) = false := by
      have := List.of_mem_filter hc
      simpa using this
    rw [← hpc]
    simp only
    exact beq_eq_false_iff_ne.mpr
      (renameRightCol_ne_key key lc hy c (by simpa using hc1))

theorem keyOf_mergeRowFn (lc rc : List String) (right : Table) (L : Row) :
    keyOf (mergeRowFn "板块代码" lc rc right L) = keyOf L :=
  rowGetJ_mergeRowFn_key "板块代码" lc rc right L
    suffix_x_ne_sector_key suffix_y_ne_sector_key

theorem find?_keyMatches_eq_none (key : String) (aux : Table) (L : Row)
    (h : rowGetJ L key ∉ aux.map (fun R => rowGetJ R key)) :
    aux.find? (keyMatches key L) = none := by
  rw [List.find?_eq_none]
  intro R hR hm
  apply h
  have : rowGetJ R key = rowGetJ L key := by simpa [keyMatches] using hm
  exact List.mem_map.mpr ⟨R, hR, this⟩

/-- C2: merge key integrity.  For the left merge on 板块代码 performed by
`ConceptSectorScraper.scrape_all_data`, if the auxiliary period frame has one
row per key (distinct keys) and its keys are a subset of the primary frame's
N distinct keys, the merged frame has exactly N rows — one per primary row,
in order, with the primary's key sequence unchanged (no row dropped, none
duplicated) — and a primary row whose key is missing from the auxiliary
frame gets every auxiliary column bound to null. -/
theorem merge_key_integrity (lc rc : List String) (primary aux : Table)
    (hP : (primary.map keyOf).Nodup)
    (hA : (aux.map keyOf).Nodup)
    (hsub : ∀ k ∈ aux.map keyOf, k ∈ primary.map keyOf) :
    (leftMerge "板块代码" lc rc primary aux).length = primary.length
    ∧ (leftMerge "板块代码" lc rc primary aux).map keyOf = primary.map keyOf
    ∧ leftMerge "板块代码" lc rc primary aux
        = primary.map (mergeRowFn "板块代码" lc rc aux)
    ∧ ∀ L, keyOf L ∉ aux.map keyOf →
        mergeRowFn "板块代码" lc rc aux L
          = L.map (renameLeftCol "板块代码" rc)
            ++ (rc.filter (fun c => !(c == "板块代码"))).map
                (fun c => (renameRightCol "板块代码" lc c, JVal.null)) := by
  have hA2 : (aux.map (fun R => rowGetJ R "板块代码")).Nodup := hA
  have hmap := leftMerge_eq_map "板块代码" lc rc primary aux hA2
  refine ⟨?_, ?_, hmap, ?_⟩
  · rw [hmap, List.length_map]
  · rw [hmap, List.map_map]
    refine List.map_congr_left ?_
    intro L _
    exact keyOf_mergeRowFn lc rc aux L
  · intro L hL
    unfold mergeRowFn
    rw [find?_keyMatches_eq_none "板块代码" aux L hL]
    rfl

/-- Primary frame of the merge witness: keys A, B, C. -/
def primaryW : Table :=
  [[("板块代码", JVal.str "A"), ("val", JVal.num 1)],
   [("板块代码", JVal.str "B"), ("val", JVal.num 2)],
   [("板块代码", JVal.str "C"), ("val", JVal.num 3)]]

/-- Auxiliary frame of the merge witness: keys A, C only. -/
def auxW : Table :=
  [[("板块代码", JVal.str "A"), ("x", JVal.num 10)],
   [("板块代码", JVal.str "C"), ("x", JVal.num 30)]]

/-- C2 witness: merging 3 primary keys with a 2-key auxiliary frame keeps
exactly 3 rows and the key sequence A, B, C. -/
theorem merge_key_integrity_witness :
    (primaryW.map keyOf).Nodup
    ∧ (auxW.map keyOf).Nodup
    ∧ (∀ k ∈ auxW.map keyOf, k ∈ primaryW.map keyOf)
    ∧ ((leftMerge "板块代码" ["板块代码", "val"] ["板块代码", "x"] primaryW auxW).length
        = primaryW.length
      ∧ (leftMerge "板块代码" ["板块代码", "val"] ["板块代码", "x"] primaryW auxW).map keyOf
        = primaryW.map keyOf
      ∧ leftMerge "板块代码" ["板块代码", "val"] ["板块代码", "x"] primaryW auxW
        = primaryW.map (mergeRowFn "板块代码" ["板块代码", "val"] ["板块代码", "x"] auxW)
      ∧ ∀ L, keyOf L ∉ auxW.map keyOf →
          mergeRowFn "板块代码" ["板块代码", "val"] ["板块代码", "x"] auxW L
            = L.map (renameLeftCol "板块代码" ["板块代码", "x"])
              ++ ((["板块代码", "x"] : List String).filter
                    (fun c => !(c == "板块代码"))).map
                  (fun c => (renameRightCol "板块代码" ["板块代码", "val"] c, JVal.null))) :=
  ⟨by decide, by decide, by decide,
   merge_key_integrity ["板块代码", "val"] ["板块代码", "x"] primaryW auxW
     (by decide) (by decide) (by decide)⟩

/-! ### Parser claims -/

/-- A fixed timestamp renderer for concrete witnesses. -/
def fmtTsW : ℤ → String := fun _ => "TS"

/-- Witness record with a small main net inflow (1000 after conversion). -/
def flowRecA : RawRecord := [("f62", JVal.num 10000000)]

/-- Witness record with a large main net inflow (20000 after conversion). -/
def flowRecB : RawRecord := [("f62", JVal.num 200000000)]

/-- C3 counterexample: `parse_capital_flow_data` does NOT keep input order —
with a small-inflow record first and a large-inflow record second, the first
output row is the one built from the second input record. -/
theorem parser_output_order_counterexample :
    (parse_capital_flow_data fmtTsW "T" [flowRecA, flowRecB]).head?
      = some (parseFlowRow fmtTsW "T" flowRecB)
    ∧ parseFlowRow fmtTsW "T" flowRecB ≠ parseFlowRow fmtTsW "T" flowRecA := by
  constructor
  · decide
  · decide

/-- C3 amended: `SectorDataParser.parse_quotes_data` emits exactly one row
per record in input order with no sort; `StockCapitalFlowParser.
parse_capital_flow_data` emits exactly one row per record but sorted
descending by 主力净流入 (nulls last), not in input order. -/
theorem parser_output_order_amended (l : List RawRecord) (hl : l ≠ [])
    (fmtTs : ℤ → String) (now : String) :
    parse_quotes_data l = l.map parseQuoteRow
    ∧ (parse_capital_flow_data fmtTs now l).Perm (l.map (parseFlowRow fmtTs now))
    ∧ (parse_capital_flow_data fmtTs now l).Pairwise
        (fun a b => flowRowLe a b = true) := by
  have hne : l.isEmpty = false := by
    cases l with
    | nil => exact absurd rfl hl
    | cons a as => rfl
  refine ⟨?_, ?_, ?_⟩
  · unfold parse_quotes_data
    rw [hne]
    rfl
  · unfold parse_capital_flow_data
    rw [hne]
    simp only [Bool.false_eq_true, if_false]
    exact sortBy_perm flowRowLe (l.map (parseFlowRow fmtTs now))
  · unfold parse_capital_flow_data
    rw [hne]
    simp only [Bool.false_eq_true, if_false]
    exact sortBy_pairwise flowRowLe_total flowRowLe_trans (l.map (parseFlowRow fmtTs now))

/-- C3 witness: the amended statement applied to a concrete singleton list. -/
theorem parser_output_order_amended_witness :
    ([flowRecA] : List RawRecord) ≠ []
    ∧ (parse_quotes_data [flowRecA] = [flowRecA].map parseQuoteRow
      ∧ (parse_capital_flow_data fmtTsW "T" [flowRecA]).Perm
          ([flowRecA].map (parseFlowRow fmtTsW "T"))
      ∧ (parse_capital_flow_data fmtTsW "T" [flowRecA]).Pairwise
          (fun a b => flowRowLe a b = true)) :=
  ⟨by decide, parser_output_order_amended [flowRecA] (by decide) fmtTsW "T"⟩

/-- The 主力净流入 column of a parsed sector quote row is the transform of
the record's `f62` field (the field map walk reduces definitionally). -/
theorem rowGetJ_parseQuoteRow_f62 (r : RawRecord) :
    rowGetJ (parseQuoteRow r) "主力净流入"
      = parseQuoteValue "主力净流入" (rawGet r "f62") := rfl

/-- The general column lookup of a parsed stock capital-flow row: the first
field-map entry with the requested Chinese name decides the value; a lookup
of the appended 数据获取时间 column gives the capture time. -/
theorem rowGetJ_parseFlowRow (fmtTs : ℤ → String) (now : String)
    (r : RawRecord) (name : String) :
    rowGetJ (parseFlowRow fmtTs now r) name
      = match STOCK_FLOW_FIELD_MAPPING.find? (fun p => p.2 == name) with
        | some p => parseFlowValue fmtTs now p.2 (rawGet r p.1)
        | none => if "数据获取时间" == name then JVal.str now else JVal.null := by
  unfold parseFlowRow rowGetJ
  rw [List.find?_append, List.find?_map]
  have hcomp : ((fun x : String × JVal => x.1 == name)
      ∘ (fun p : String × String => (p.2, parseFlowValue fmtTs now p.2 (rawGet r p.1))))
      = fun p : String × String => p.2 == name := rfl
  rw [hcomp]
  cases hf : STOCK_FLOW_FIELD_MAPPING.find? (fun p : String × String => p.2 == name) with
  | some p => rfl
  | none =>
    simp only [Option.map_none, Option.none_or]
    by_cases h : ("数据获取时间" == name) = true
    · simp [List.find?_cons, h]
    · simp [List.find?_cons, h]

/-- C4 counterexample: a raw net-inflow value of 123400000 yuan parses to
12340.0 (10k-yuan), not to 1234.0 as the claim states, in both the sector
quote field map and the stock capital-flow field map. -/
theorem unit_conversion_counterexample :
    rowGetJ (parseQuoteRow [("f62", JVal.num 123400000)]) "主力净流入" = JVal.num 12340
    ∧ rowGetJ (parseFlowRow fmtTsW "T" [("f62", JVal.num 123400000)]) "主力净流入"
        = JVal.num 12340
    ∧ JVal.num 12340 ≠ JVal.num 1234 := by
  refine ⟨by decide, by decide, by decide⟩

/-- The 主力净流入 column of a parsed capital-flow row is the transform of
the record's `f62` field. -/
theorem rowGetJ_parseFlowRow_f62 (fmtTs : ℤ → String) (now : String) (r : RawRecord) :
    rowGetJ (parseFlowRow fmtTs now r) "主力净流入"
      = parseFlowValue fmtTs now "主力净流入" (rawGet r "f62") := by
  rw [rowGetJ_parseFlowRow]
  rfl

/-- C4 amended: for every record whose `f62` (main net inflow) field holds
the raw value 123400000, both parsers emit 12340.0 for the 主力净流入
column — the raw yuan amount divided by 10000 and rounded to 2 decimals. -/
theorem unit_conversion_amended (r : RawRecord) (fmtTs : ℤ → String) (now : String)
    (h : rawGet r "f62" = JVal.num 123400000) :
    rowGetJ (parseQuoteRow r) "主力净流入" = JVal.num 12340
    ∧ rowGetJ (parseFlowRow fmtTs now r) "主力净流入" = JVal.num 12340 := by
  constructor
  · rw [rowGetJ_parseQuoteRow_f62, h]
    rfl
  · rw [rowGetJ_parseFlowRow_f62, h]
    rfl

/-- C4 witness: the amended statement at a concrete one-field record. -/
theorem unit_conversion_amended_witness :
    rawGet [("f62", JVal.num 123400000)] "f62" = JVal.num 123400000
    ∧ (rowGetJ (parseQuoteRow [("f62", JVal.num 123400000)]) "主力净流入" = JVal.num 12340
      ∧ rowGetJ (parseFlowRow fmtTsW "T" [("f62", JVal.num 123400000)]) "主力净流入"
          = JVal.num 12340) :=
  ⟨by decide, unit_conversion_amended [("f62", JVal.num 123400000)] fmtTsW "T" (by decide)⟩

/-- C5 counterexample: two runs of the capital-flow parser on the identical
record list, at different wall-clock instants, give different parsed tables
(the appended 数据获取时间 column takes the clock value). -/
theorem parsing_determinism_counterexample :
    parse_capital_flow_data fmtTsW "A" [flowRecA]
      ≠ parse_capital_flow_data fmtTsW "B" [flowRecA] := by
  decide

/-- The per-field transform of the capital-flow parser does not read the
clock except for the 更新时间戳 column. -/
theorem parseFlowValue_clock_indep (fmtTs : ℤ → String) (now1 now2 : String)
    (name : String) (hts : name ≠ "更新时间戳") (v : JVal) :
    parseFlowValue fmtTs now1 name v = parseFlowValue fmtTs now2 name v := by
  have h : (name == "更新时间戳") = false := beq_eq_false_iff_ne.mpr hts
  unfold parseFlowValue
  simp only [h, Bool.false_eq_true, if_false]

/-- C5 amended: parsing is deterministic given the wall-clock reading.  For
the stock capital-flow parser, every field-mapped column other than
更新时间戳 is a pure function of the record (identical across runs at
different clock instants), while the appended 数据获取时间 column equals the
clock reading of that run — so only the time-derived columns vary between
two parses of the same record.  (The sector quote parser reads no clock at
all: `parse_quotes_data` is a function of the record list alone.) -/
theorem parsing_determinism_amended (fmtTs : ℤ → String) (now1 now2 : String)
    (r : RawRecord) (name : String)
    (hmem : name ∈ STOCK_FLOW_FIELD_MAPPING.map Prod.snd)
    (hts : name ≠ "更新时间戳") :
    rowGetJ (parseFlowRow fmtTs now1 r) name = rowGetJ (parseFlowRow fmtTs now2 r) name
    ∧ rowGetJ (parseFlowRow fmtTs now1 r) "数据获取时间" = JVal.str now1 := by
  constructor
  · rw [rowGetJ_parseFlowRow, rowGetJ_parseFlowRow]
    cases hf : STOCK_FLOW_FIELD_MAPPING.find? (fun p => p.2 == name) with
    | some p =>
      simp only
      have hp2 : p.2 = name := by
        have := List.find?_some hf
        simpa using this
      rw [hp2]
      exact parseFlowValue_clock_indep fmtTs now1 now2 name hts (rawGet r p.1)
    | none =>
      exfalso
      rcases List.mem_map.mp hmem with ⟨p, hpmem, hpname⟩
      have := List.find?_eq_none.mp hf p hpmem
      simp [hpname] at this
  · rw [rowGetJ_parseFlowRow]
    rfl

/-- C5 witness: the amended statement at a concrete record and column. -/
theorem parsing_determinism_amended_witness :
    ("主力净流入" ∈ STOCK_FLOW_FIELD_MAPPING.map Prod.snd)
    ∧ ("主力净流入" ≠ "更新时间戳")
    ∧ (rowGetJ (parseFlowRow fmtTsW "A" flowRecA) "主力净流入"
        = rowGetJ (parseFlowRow fmtTsW "B" flowRecA) "主力净流入"
      ∧ rowGetJ (parseFlowRow fmtTsW "A" flowRecA) "数据获取时间" = JVal.str "A") :=
  ⟨by decide, by decide,
   parsing_determinism_amended fmtTsW "A" "B" flowRecA "主力净流入" (by decide) (by decide)⟩

/-! ### Scraper orchestration (`scrape_all_data`) -/

/-- `get_value` of `ConceptSectorParser.parse_capital_flow` on an amount
field: yuan → 10k-yuan, 2 decimals; null, `"-"` or an unparseable value
stays null. -/
def flowAmountVal (r : RawRecord) (fk : String) : JVal :=
  match rawGet r fk with
  | JVal.num q => JVal.num (pyRound2 (div10000 q))
  | _ => JVal.null

/-- `get_value` on a percentage field: 2 decimals, no scaling. -/
def flowPercentVal (r : RawRecord) (fk : String) : JVal :=
  match rawGet r fk with
  | JVal.num q => JVal.num (pyRound2 q)
  | _ => JVal.null

/-- One row of `ConceptSectorParser.parse_capital_flow`
(concept_sector_scraper.py lines 648-751): sector code and name, then the
period-specific f-codes (today: f62/f184/f66/f69/f72/f75; 5day:
f267/f268/f269/f270/f271/f272; 10day: f164/f174/f165/f166/f167/f168) under
the period column prefix ('', 5日, 10日). -/
def parseConceptFlowRow (period : String) (r : RawRecord) : Row :=
  let base : Row := [("板块代码", rawGet r "f12"), ("板块名称", rawGet r "f14")]
  if period == "today" then
    base ++ [("主力净流入", flowAmountVal r "f62"),
             ("主力净流入占比", flowPercentVal r "f184"),
             ("超大单净流入", flowAmountVal r "f66"),
             ("大单净流入", flowAmountVal r "f69"),
             ("中单净流入", flowAmountVal r "f72"),
             ("小单净流入", flowAmountVal r "f75")]
  else if period == "5day" then
    base ++ [("5日主力净流入", flowAmountVal r "f267"),
             ("5日主力净流入占比", flowPercentVal r "f268"),
             ("5日超大单净流入", flowAmountVal r "f269"),
             ("5日大单净流入", flowAmountVal r "f270"),
             ("5日中单净流入", flowAmountVal r "f271"),
             ("5日小单净流入", flowAmountVal r "f272")]
  else if period == "10day" then
    base ++ [("10日主力净流入", flowAmountVal r "f164"),
             ("10日主力净流入占比", flowPercentVal r "f174"),
             ("10日超大单净流入", flowAmountVal r "f165"),
             ("10日大单净流入", flowAmountVal r "f166"),
             ("10日中单净流入", flowAmountVal r "f167"),
             ("10日小单净流入", flowAmountVal r "f168")]
  else base

/-- `ConceptSectorParser.parse_capital_flow`: one row per record, no sort. -/
def parse_capital_flow (period : String) (l : List RawRecord) : Table :=
  if l.isEmpty then [] else l.map (parseConceptFlowRow period)

/-- The column names of a frame (taken from its first row; a frame built by
the parsers binds the same columns in every row). -/
def tableCols (t : Table) : List String :=
  match t with
  | [] => []
  | r :: _ => r.map Prod.fst

/-- `df_flow[cols_to_merge]` where
`cols_to_merge = [col for col in df_flow.columns if col not in ['板块名称']]`. -/
def dropNameCol (t : Table) : Table :=
  t.map (List.filter (fun p => !(p.1 == "板块名称")))

/-- `df[c] = v`: append a constant column. -/
def addCol (c : String) (v : JVal) (t : Table) : Table :=
  t.map (fun r => r ++ [(c, v)])

/-- `c in df.columns`. -/
def hasCol (t : Table) (c : String) : Bool :=
  match t with
  | [] => false
  | r :: _ => r.any (fun p => p.1 == c)

/-- `df.sort_values(c, ascending=False)` (nulls last). -/
def sortDescBy (c : String) (t : Table) : Table :=
  sortBy (fun a b => descNullsLastLe (rowGetJ a c) (rowGetJ b c)) t

/-- The observable outcome of one `scrape_all_data` call: the returned
frame, whether the auxiliary capital-flow fetches were performed, and
whether the empty-primary error was logged.  The body is wrapped in a
`try/except` returning an empty frame, so no exception escapes; the model
is accordingly a total function. -/
structure ScrapeRun where
  result : Table
  auxFetched : Bool
  errorLogged : Bool
deriving DecidableEq

/-- `ConceptSectorScraper.scrape_all_data` (concept_sector_scraper.py lines
825-909) given the fetched raw lists: parse the primary quotes, abort with
an empty frame and an error log if empty; otherwise fetch+parse the three
capital-flow periods, left-merge each non-empty one on 板块代码 (dropping
its 板块名称 column), stamp 更新时间, and sort descending by 涨跌幅. -/
def concept_scrape_all_data (now : String)
    (quotes flowT flow5 flow10 : List RawRecord) : ScrapeRun :=
  let dfQ := parse_concept_quotes quotes
  if dfQ.isEmpty then ⟨[], false, true⟩
  else
    let dT := parse_capital_flow "today" flowT
    let d5 := parse_capital_flow "5day" flow5
    let d10 := parse_capital_flow "10day" flow10
    let m1 := if dT.isEmpty then dfQ
      else leftMerge "板块代码" (tableCols dfQ) (tableCols (dropNameCol dT))
        dfQ (dropNameCol dT)
    let m2 := if d5.isEmpty then m1
      else leftMerge "板块代码" (tableCols m1) (tableCols (dropNameCol d5))
        m1 (dropNameCol d5)
    let m3 := if d10.isEmpty then m2
      else leftMerge "板块代码" (tableCols m2) (tableCols (dropNameCol d10))
        m2 (dropNameCol d10)
    let m4 := addCol "更新时间" (JVal.str now) m3
    let m5 := if hasCol m4 "涨跌幅" then sortDescBy "涨跌幅" m4 else m4
    ⟨m5, true, false⟩

/-- `SectorScraper.scrape_all_data` (sector_scraper.py lines 506-537): parse
the primary quotes, abort with an empty frame and an error log if empty;
otherwise stamp 更新时间 and sort descending by 涨跌幅 (this scraper fetches
no auxiliary dataset at all). -/
def sector_scrape_all_data (now : String) (quotes : List RawRecord) : ScrapeRun :=
  let dfQ := parse_quotes_data quotes
  if dfQ.isEmpty then ⟨[], false, true⟩
  else
    let m := addCol "更新时间" (JVal.str now) dfQ
    let m2 := if hasCol m "涨跌幅" then sortDescBy "涨跌幅" m else m
    ⟨m2, false, false⟩

/-- C6: empty primary dataset.  Whenever the fetched-and-parsed primary
quote frame is empty, `scrape_all_data` returns an empty frame and logs an
error without raising (the model is a total function), and performs no
auxiliary capital-flow fetch or merge. -/
theorem empty_primary_dataset (now : String)
    (quotes flowT flow5 flow10 : List RawRecord)
    (hc : parse_concept_quotes quotes = [])
    (hs : parse_quotes_data quotes = []) :
    concept_scrape_all_data now quotes flowT flow5 flow10
      = ⟨[], false, true⟩
    ∧ sector_scrape_all_data now quotes = ⟨[], false, true⟩ := by
  constructor
  · unfold concept_scrape_all_data
    rw [hc]
    rfl
  · unfold sector_scrape_all_data
    rw [hs]
    rfl

/-- C6 witness: an empty quote fetch aborts before the auxiliary step. -/
theorem empty_primary_dataset_witness :
    parse_concept_quotes [] = []
    ∧ parse_quotes_data [] = []
    ∧ (concept_scrape_all_data "T" [] [flowRecA] [] [] = ⟨[], false, true⟩
      ∧ sector_scrape_all_data "T" [] = ⟨[], false, true⟩) :=
  ⟨by decide, by decide,
   empty_primary_dataset "T" [] [flowRecA] [] [] (by decide) (by decide)⟩

/-! ### Persistence (`save_data`) -/

/-- The observable outcome of one `save_data` call on a POSIX filesystem
whose writes succeed: file paths written in order, the returned path, and
the number of warnings logged.  (A failed `to_csv` is caught and returns
`""`; disk failure is outside this model, which covers the successful-write
behaviour the claims quantify over.) -/
structure SaveResult where
  written : List String
  ret : String
  warnings : ℕ
deriving DecidableEq

/-- `SectorScraper.save_data` (sector_scraper.py lines 539-577): an empty
frame logs one warning and returns `""` writing nothing; an unset output
directory logs an error and returns `""`; otherwise the frame is written to
the timestamped file and to the fixed `_latest.csv` file, and the
timestamped path is returned. -/
def sector_save_data (outputDir timestamp fnPfx : String) (df : Table) : SaveResult :=
  if df.isEmpty then ⟨[], "", 1⟩
  else if outputDir == "" then ⟨[], "", 0⟩
  else
    ⟨[outputDir ++ "/" ++ fnPfx ++ "_" ++ timestamp ++ ".csv",
      outputDir ++ "/" ++ fnPfx ++ "_latest.csv"],
     outputDir ++ "/" ++ fnPfx ++ "_" ++ timestamp ++ ".csv", 0⟩

/-- `ConceptSectorScraper.save_data` (concept_sector_scraper.py lines
911-952): as `sector_save_data` but with no output-directory check. -/
def concept_save_data (outputDir timestamp fnPfx : String) (df : Table) : SaveResult :=
  if df.isEmpty then ⟨[], "", 1⟩
  else
    ⟨[outputDir ++ "/" ++ fnPfx ++ "_" ++ timestamp ++ ".csv",
      outputDir ++ "/" ++ fnPfx ++ "_latest.csv"],
     outputDir ++ "/" ++ fnPfx ++ "_" ++ timestamp ++ ".csv", 0⟩

/-- `StockCapitalFlowScraper.save_data` (stock_capital_flow_scraper.py lines
388-412): no empty check and no `_latest.csv` — it writes the frame (empty
or not) to the single market-tagged timestamped file and returns its path. -/
def stock_save_data (outputDir marketValue timestamp fnPfx : String)
    (df : Table) : SaveResult :=
  ⟨[outputDir ++ "/" ++ fnPfx ++ "_" ++ marketValue ++ "_" ++ timestamp ++ ".csv"],
   outputDir ++ "/" ++ fnPfx ++ "_" ++ marketValue ++ "_" ++ timestamp ++ ".csv", 0⟩

/-- C7 counterexample: `StockCapitalFlowScraper.save_data` on a non-empty
frame writes exactly one file (no `_latest.csv`), so the dual-file contract
fails for it. -/
theorem dual_file_persistence_counterexample :
    (stock_save_data "out" "all" "20240101_000000" "stock_capital_flow"
      [[("股票代码", JVal.str "000001")]]).written
      = ["out/stock_capital_flow_all_20240101_000000.csv"]
    ∧ (stock_save_data "out" "all" "20240101_000000" "stock_capital_flow"
        [[("股票代码", JVal.str "000001")]]).written.length ≠ 2
    ∧ "out/stock_capital_flow_latest.csv"
        ∉ (stock_save_data "out" "all" "20240101_000000" "stock_capital_flow"
            [[("股票代码", JVal.str "000001")]]).written := by
  refine ⟨by decide, by decide, by decide⟩

/-- C7 amended: on a non-empty frame, `SectorScraper.save_data` and
`ConceptSectorScraper.save_data` write the timestamped
`<prefix>_<timestamp>.csv` and the fixed `<prefix>_latest.csv` and return
the timestamped path; `StockCapitalFlowScraper.save_data` instead writes the
single timestamped `<prefix>_<market>_<timestamp>.csv` (no latest file) and
returns that path. -/
theorem dual_file_persistence_amended
    (outputDir timestamp fnPfx marketValue : String) (df : Table)
    (hne : df ≠ []) (hdir : outputDir ≠ "") :
    sector_save_data outputDir timestamp fnPfx df
      = ⟨[outputDir ++ "/" ++ fnPfx ++ "_" ++ timestamp ++ ".csv",
          outputDir ++ "/" ++ fnPfx ++ "_latest.csv"],
         outputDir ++ "/" ++ fnPfx ++ "_" ++ timestamp ++ ".csv", 0⟩
    ∧ concept_save_data outputDir timestamp fnPfx df
      = ⟨[outputDir ++ "/" ++ fnPfx ++ "_" ++ timestamp ++ ".csv",
          outputDir ++ "/" ++ fnPfx ++ "_latest.csv"],
         outputDir ++ "/" ++ fnPfx ++ "_" ++ timestamp ++ ".csv", 0⟩
    ∧ stock_save_data outputDir marketValue timestamp fnPfx df
      = ⟨[outputDir ++ "/" ++ fnPfx ++ "_" ++ marketValue ++ "_" ++ timestamp ++ ".csv"],
         outputDir ++ "/" ++ fnPfx ++ "_" ++ marketValue ++ "_" ++ timestamp ++ ".csv",
         0⟩ := by
  have hemp : df.isEmpty = false := by
    cases df with
    | nil => exact absurd rfl hne
    | cons r rest => rfl
  have hdir2 : (outputDir == "") = false := beq_eq_false_iff_ne.mpr hdir
  refine ⟨?_, ?_, rfl⟩
  · unfold sector_save_data
    rw [hemp, hdir2]
    rfl
  · unfold concept_save_data
    rw [hemp]
    rfl

/-- C7 witness: the amended statement at concrete arguments. -/
theorem dual_file_persistence_amended_witness :
    ([[("板块代码", JVal.str "A")]] : Table) ≠ []
    ∧ ("out" : String) ≠ ""
    ∧ sector_save_data "out" "20240101_000000" "concept_sectors"
        [[("板块代码", JVal.str "A")]]
      = ⟨["out/concept_sectors_20240101_000000.csv", "out/concept_sectors_latest.csv"],
         "out/concept_sectors_20240101_000000.csv", 0⟩ :=
  ⟨by decide, by decide,
   (dual_file_persistence_amended "out" "20240101_000000" "concept_sectors" "all"
     [[("板块代码", JVal.str "A")]] (by decide) (by decide)).1⟩

/-- C8 counterexample: `StockCapitalFlowScraper.save_data` called with an
empty frame still writes a file and returns a non-empty path (it has no
empty-input guard), so the empty-input contract fails for it. -/
theorem empty_input_persistence_counterexample :
    (stock_save_data "out" "all" "20240101_000000" "stock_capital_flow" []).ret
      = "out/stock_capital_flow_all_20240101_000000.csv"
    ∧ (stock_save_data "out" "all" "20240101_000000" "stock_capital_flow" []).ret ≠ ""
    ∧ (stock_save_data "out" "all" "20240101_000000" "stock_capital_flow" []).written ≠ []
    ∧ (stock_save_data "out" "all" "20240101_000000" "stock_capital_flow" []).warnings
        = 0 := by
  refine ⟨by decide, by decide, by decide, by decide⟩

/-- C8 amended: on an empty frame, `SectorScraper.save_data` and
`ConceptSectorScraper.save_data` return `""`, create no file and log one
warning; `StockCapitalFlowScraper.save_data` instead writes the (empty)
timestamped CSV, returns its path and logs no warning. -/
theorem empty_input_persistence_amended
    (outputDir timestamp fnPfx marketValue : String) :
    sector_save_data outputDir timestamp fnPfx [] = ⟨[], "", 1⟩
    ∧ concept_save_data outputDir timestamp fnPfx [] = ⟨[], "", 1⟩
    ∧ stock_save_data outputDir marketValue timestamp fnPfx []
      = ⟨[outputDir ++ "/" ++ fnPfx ++ "_" ++ marketValue ++ "_" ++ timestamp ++ ".csv"],
         outputDir ++ "/" ++ fnPfx ++ "_" ++ marketValue ++ "_" ++ timestamp ++ ".csv",
         0⟩ :=
  ⟨rfl, rfl, rfl⟩

/-! ### API facade (api.py) -/

/-- `valid_periods` of `get_concept_capital_flow` (api.py line 168). -/
def VALID_PERIODS : List String := ["today", "5day", "10day"]

/-- The keys of `sector_type_map` in `get_sectors` /
`get_stock_to_sector_mapping` (api.py lines 366-369 and 461-464). -/
def VALID_SECTOR_TYPES : List String := ["concept", "industry"]

/-- The outcome of one facade call: whether any scrape/fetch was performed,
and either the returned value or the `ValueError` raised before fetching. -/
structure FacadeRun (α : Type) where
  fetched : Bool
  result : Except String α

/-- The period-specific column selection of `get_concept_capital_flow`
(api.py lines 179-184). -/
def periodColumns (period : String) : List String :=
  if period == "today" then
    ["板块代码", "板块名称", "主力净流入", "主力净流入占比", "超大单净流入"]
  else if period == "5day" then
    ["板块代码", "板块名称", "5日主力净流入", "5日主力净流入占比", "5日超大单净流入"]
  else
    ["板块代码", "板块名称", "10日主力净流入", "10日主力净流入占比", "10日超大单净流入"]

/-- `get_concept_capital_flow` (api.py lines 133-191), the scrape result
passed as an oracle: an unrecognized period raises `ValueError` before any
scraper is constructed or fetch performed; a recognized period scrapes and
projects the frame onto the period columns that exist (empty frame when
none do). -/
def get_concept_capital_flow (period : String) (scraped : Table) : FacadeRun Table :=
  if period ∈ VALID_PERIODS then
    let existing := (periodColumns period).filter (fun c => hasCol scraped c)
    ⟨true, Except.ok
      (if existing.isEmpty then []
       else scraped.map (fun r => existing.map (fun c => (c, rowGetJ r c))))⟩
  else ⟨false, Except.error "ValueError"⟩

/-- `get_sectors` (api.py lines 325-385) with a string sector-type argument:
an unrecognized string raises `ValueError` before any scraper is
constructed; a recognized one scrapes and returns the frame. -/
def get_sectors (sectorType : String) (scraped : Table) : FacadeRun Table :=
  if sectorType ∈ VALID_SECTOR_TYPES then ⟨true, Except.ok scraped⟩
  else ⟨false, Except.error "ValueError"⟩

/-- `get_stock_to_sector_mapping` (api.py lines 423-483) with a string
sector-type argument.  Its body ends with `return mapping` (line 482); the
`return stock_to_concepts` on line 483 is unreachable. -/
def get_stock_to_sector_mapping (sectorType : String)
    (mapping : List (String × List String)) :
    FacadeRun (List (String × List String)) :=
  if sectorType ∈ VALID_SECTOR_TYPES then ⟨true, Except.ok mapping⟩
  else ⟨false, Except.error "ValueError"⟩

/-- C9: invalid user input.  A period string outside
{today, 5day, 10day} makes `get_concept_capital_flow` raise `ValueError`
synchronously with no fetch performed; a sector-type string outside
{concept, industry} does the same for `get_sectors` and
`get_stock_to_sector_mapping`; every recognized value fetches and never
raises that error. -/
theorem invalid_user_input (period sectorType : String) (t : Table)
    (m : List (String × List String))
    (hp : period ∉ VALID_PERIODS) (hst : sectorType ∉ VALID_SECTOR_TYPES) :
    get_concept_capital_flow period t = ⟨false, Except.error "ValueError"⟩
    ∧ get_sectors sectorType t = ⟨false, Except.error "ValueError"⟩
    ∧ get_stock_to_sector_mapping sectorType m = ⟨false, Except.error "ValueError"⟩
    ∧ (∀ q ∈ VALID_PERIODS, (get_concept_capital_flow q t).fetched = true
        ∧ ∀ e, (get_concept_capital_flow q t).result ≠ Except.error e)
    ∧ (∀ s ∈ VALID_SECTOR_TYPES, (get_sectors s t).fetched = true
        ∧ (∀ e, (get_sectors s t).result ≠ Except.error e)
        ∧ (get_stock_to_sector_mapping s m).fetched = true
        ∧ ∀ e, (get_stock_to_sector_mapping s m).result ≠ Except.error e) := by
  refine ⟨?_, ?_, ?_, ?_, ?_⟩
  · unfold get_concept_capital_flow
    rw [if_neg hp]
  · unfold get_sectors
    rw [if_neg hst]
  · unfold get_stock_to_sector_mapping
    rw [if_neg hst]
  · intro q hq
    unfold get_concept_capital_flow
    rw [if_pos hq]
    exact ⟨rfl, fun e h => by simpa using h⟩
  · intro s hs
    unfold get_sectors get_stock_to_sector_mapping
    rw [if_pos hs, if_pos hs]
    exact ⟨rfl, fun e h => by simpa using h, rfl, fun e h => by simpa using h⟩

/-- C9 witness: the unrecognized strings "weekly" and "sector" raise before
fetching; "today" and "concept" fetch without error. -/
theorem invalid_user_input_witness :
    ("weekly" ∉ VALID_PERIODS)
    ∧ ("sector" ∉ VALID_SECTOR_TYPES)
    ∧ (get_concept_capital_flow "weekly" [] = ⟨false, Except.error "ValueError"⟩
      ∧ get_sectors "sector" [] = ⟨false, Except.error "ValueError"⟩
      ∧ get_stock_to_sector_mapping "sector" [] = ⟨false, Except.error "ValueError"⟩
      ∧ (∀ q ∈ VALID_PERIODS, (get_concept_capital_flow q ([] : Table)).fetched = true
          ∧ ∀ e, (get_concept_capital_flow q ([] : Table)).result ≠ Except.error e)
      ∧ (∀ s ∈ VALID_SECTOR_TYPES, (get_sectors s ([] : Table)).fetched = true
          ∧ (∀ e, (get_sectors s ([] : Table)).result ≠ Except.error e)
          ∧ (get_stock_to_sector_mapping s []).fetched = true
          ∧ ∀ e, (get_stock_to_sector_mapping s []).result ≠ Except.error e)) :=
  ⟨by decide, by decide,
   invalid_user_input "weekly" "sector" [] [] (by decide) (by decide)⟩

/-- One step of the inversion loop of `get_stock_to_concept_map` (api.py
lines 310-315): record that `stock` belongs to `concept`, creating the entry
on first sight. -/
def addGroup (acc : List (String × List String)) (stock concept : String) :
    List (String × List String) :=
  if acc.any (fun p => p.1 == stock) then
    acc.map (fun p => if p.1 == stock then (p.1, p.2 ++ [concept]) else p)
  else acc ++ [(stock, [concept])]

/-- The `stock_to_concepts` dictionary built by `get_stock_to_concept_map`
from the concept→stocks mapping. -/
def invertMapping (m : List (String × List String)) : List (String × List String) :=
  m.foldl (fun acc cs => cs.2.foldl (fun acc2 stock => addGroup acc2 stock cs.1) acc) []

/-- The observable outcome of `get_stock_to_concept_map`: the dictionary its
body builds, whether it saved, and the value returned to the caller. -/
structure ConceptMapRun where
  built : List (String × List String)
  saved : Bool
  ret : Option (List (String × List String))
deriving DecidableEq

/-- `get_stock_to_concept_map` (api.py lines 256-322), the scraped
concept→stocks mapping passed as an oracle: the body inverts it into
`stock_to_concepts` and optionally saves, but the function body ends at the
final `logger.info` (line 322) with no `return` statement, so Python
returns `None`. -/
def get_stock_to_concept_map (mapping : List (String × List String))
    (saveToFile : Bool) : ConceptMapRun :=
  { built := invertMapping mapping, saved := saveToFile, ret := none }

/-- C10: every completing invocation of `get_stock_to_concept_map` returns
`None` — the built stock→concepts dictionary is never returned (the
`return stock_to_concepts` at api.py line 483 is dead code, placed after the
unconditional `return mapping` of `get_stock_to_sector_mapping`, which is
what that function actually returns). -/
theorem get_stock_to_concept_map_returns_none
    (mapping : List (String × List String)) (saveToFile : Bool) :
    (get_stock_to_concept_map mapping saveToFile).ret = none
    ∧ (get_stock_to_concept_map mapping saveToFile).built = invertMapping mapping
    ∧ (get_stock_to_sector_mapping "concept" mapping).result = Except.ok mapping
    ∧ (get_stock_to_sector_mapping "industry" mapping).result = Except.ok mapping :=
  ⟨rfl, rfl, rfl, rfl⟩
